import Mathlib

/-!
Shallow embedding of the angular-leaf backend (NestJS/TypeScript) core:
the recommendation generators (templated mock and delegated OpenAI
post-processing), the classifier proxy (retry/backoff, response
normalization, temp-file cleanup, batch fan-out), and the recommendation
store (persistence, pagination, feedback, rating analytics).

Numbers that are JavaScript `number`s carrying confidences/ratings are
modelled as `ℚ`; timestamps and sizes as `ℕ`; fallible code as `Except`;
the Mongo document collection as a `List` of documents.
-/

namespace AngularLeaf

/-- Treatment step of a recommendation (`TreatmentStep` in
`recommendation.schema.ts`).  The optional fields (`materials?`,
`duration?`, `precautions?`) are modelled as plain lists / strings since
every producer in the repository supplies them; absence would be `[]` /
`""`. -/
structure TreatmentStep where
  step : ℕ
  action : String
  description : String
  materials : List String
  duration : String
  precautions : List String
deriving Repr, DecidableEq

/-- Prevention measure of a recommendation (`PreventionMeasure` in
`recommendation.schema.ts`); `priority` is one of the strings
"high" | "medium" | "low". -/
structure PreventionMeasure where
  category : String
  measure : String
  description : String
  frequency : String
  priority : String
deriving Repr, DecidableEq

/-- Recommendation content (`RecommendationContent` in
`recommendation.schema.ts`); `severity` is one of the strings
"mild" | "moderate" | "severe". -/
structure RecommendationContent where
  disease : String
  confidence : ℚ
  severity : String
  immediateActions : List String
  treatmentSteps : List TreatmentStep
  preventionMeasures : List PreventionMeasure
  additionalNotes : String
  sourceReliability : ℚ
  estimatedRecoveryTime : String
deriving Repr, DecidableEq

namespace MockOpenai

/-- Lower-cased characters of a string, as JavaScript
`classification.toLowerCase()` produces for ASCII input. -/
def toLowerChars (s : String) : List Char :=
  s.data.map Char.toLower

/-- Substring containment on character lists, as JavaScript
`hay.includes(needle)`. -/
def containsSubstr : List Char → List Char → Bool
  | [], needle => needle.isEmpty
  | c :: t, needle => needle.isPrefixOf (c :: t) || containsSubstr t needle

/-- Test `classification.toLowerCase().includes('healthy')` from
`MockOpenaiService.generateMockRecommendation`. -/
def isHealthyClassification (classification : String) : Bool :=
  containsSubstr (toLowerChars classification) (toLowerChars "healthy")

/-- Translation of `MockOpenaiService.getEstimatedRecoveryTime`. -/
def getEstimatedRecoveryTime (severity : String) : String :=
  if severity = "mild" then "1-3 weeks with proper treatment"
  else if severity = "moderate" then "3-6 weeks with consistent treatment"
  else if severity = "severe" then
    "6-12 weeks with intensive treatment and possible plant replacement"
  else "3-6 weeks with proper treatment"

/-- Translation of `MockOpenaiService.generateMockRecommendation`
(mock-openai.service.ts).  The healthy branch is taken when the
lower-cased classification contains "healthy"; otherwise the disease
branch derives severity from the confidence thresholds 0.8 / 0.6. -/
def generateMockRecommendation (classification : String) (confidence : ℚ)
    (additionalContext : Option String) : RecommendationContent :=
  if isHealthyClassification classification then
    { disease := "Healthy Plant"
      confidence := min (confidence + 0.05) 1.0
      severity := "mild"
      immediateActions :=
        [ "Continue current care routine"
        , "Monitor plant regularly"
        , "Maintain proper watering schedule" ]
      treatmentSteps :=
        [ { step := 1
            action := "Maintain Current Care"
            description := "Continue with your current plant care routine as the plant appears healthy."
            materials := ["Regular watering tools", "Fertilizer (if scheduled)"]
            duration := "Ongoing"
            precautions := ["Avoid overwatering", "Monitor for any changes"] } ]
      preventionMeasures :=
        [ { category := "General Care"
            measure := "Regular monitoring"
            description := "Check plant weekly for any signs of disease or stress"
            frequency := "Weekly"
            priority := "high" }
        , { category := "Environmental Control"
            measure := "Maintain optimal conditions"
            description := "Ensure proper light, temperature, and humidity levels"
            frequency := "Daily"
            priority := "high" }
        , { category := "Nutrition"
            measure := "Balanced fertilization"
            description := "Apply appropriate fertilizer according to plant needs and season"
            frequency := "Monthly"
            priority := "medium" } ]
      additionalNotes := "Your plant appears to be in good health. Continue with preventive care to maintain its condition."
      sourceReliability := 0.9
      estimatedRecoveryTime := "Plant is already healthy" }
  else
    let severity : String :=
      if confidence > 0.8 then "moderate"
      else if confidence > 0.6 then "mild"
      else "severe"
    { disease := "Angular Leaf Spot"
      confidence := min (confidence + 0.1) 1.0
      severity := severity
      immediateActions :=
        [ "Isolate affected plants immediately"
        , "Remove all infected leaves using sterilized tools"
        , "Improve air circulation around the plant"
        , "Stop overhead watering immediately"
        , "Dispose of infected plant material properly" ]
      treatmentSteps :=
        [ { step := 1
            action := "Remove infected foliage"
            description := "Carefully remove all leaves showing signs of angular leaf spot using sterilized pruning shears. Cut back to healthy tissue."
            materials := ["Sterilized pruning shears", "Rubbing alcohol", "Disposal bags"]
            duration := "30-45 minutes"
            precautions := ["Wear gloves", "Disinfect tools between cuts", "Do not compost infected material"] }
        , { step := 2
            action := "Apply copper-based fungicide"
            description := "Spray remaining healthy foliage with copper-based fungicide according to manufacturer instructions."
            materials := ["Copper fungicide", "Spray bottle or garden sprayer", "Protective equipment"]
            duration := "15-20 minutes"
            precautions := ["Apply in evening to avoid leaf burn", "Wear protective clothing", "Follow label instructions"] }
        , { step := 3
            action := "Improve growing conditions"
            description := "Increase spacing between plants, ensure proper drainage, and improve air circulation."
            materials := ["Fan (if indoor)", "Mulch", "Drainage materials"]
            duration := "1-2 hours"
            precautions := ["Avoid overcrowding", "Ensure good drainage"] }
        , { step := 4
            action := "Monitor and reapply treatment"
            description := "Monitor plant weekly and reapply fungicide every 7-14 days as needed."
            materials := ["Same as step 2"]
            duration := "15 minutes per application"
            precautions := ["Do not over-apply", "Rotate fungicide types if needed"] } ]
      preventionMeasures :=
        [ { category := "Environmental Control"
            measure := "Improve air circulation"
            description := "Ensure adequate spacing between plants and use fans if necessary to improve airflow"
            frequency := "Maintain continuously"
            priority := "high" }
        , { category := "Watering Management"
            measure := "Avoid overhead watering"
            description := "Water at soil level to keep leaves dry and reduce disease spread"
            frequency := "Every watering session"
            priority := "high" }
        , { category := "Sanitation"
            measure := "Clean growing area"
            description := "Remove fallen leaves and debris regularly to reduce disease pressure"
            frequency := "Weekly"
            priority := "medium" }
        , { category := "Plant Health"
            measure := "Avoid plant stress"
            description := "Maintain consistent watering and proper nutrition to keep plants strong"
            frequency := "Ongoing"
            priority := "medium" }
        , { category := "Preventive Treatment"
            measure := "Seasonal fungicide application"
            description := "Apply preventive fungicide treatments during high-risk periods"
            frequency := "Seasonally"
            priority := "low" } ]
      additionalNotes :=
        "Angular leaf spot is a bacterial disease that thrives in warm, humid conditions. "
          ++ (match additionalContext with
              | some ctx => "Additional context: " ++ ctx ++ ". "
              | none => "")
          ++ "Early detection and treatment are crucial for successful management. Consider consulting a plant pathologist if symptoms persist after 3-4 weeks of treatment. Avoid working with wet plants to prevent spread."
      sourceReliability := 0.85
      estimatedRecoveryTime := getEstimatedRecoveryTime
        (if confidence > 0.8 then "moderate"
         else if confidence > 0.6 then "mild"
         else "severe") }

end MockOpenai

namespace Openai

/-- Recommendation content as parsed from the external language-model
JSON reply, before `OpenaiService.validateAndEnhanceResponse` runs.
Fields that the JavaScript checks for falsiness/absence keep the shape
that check needs: the three arrays are `Option` (absent = `none`, and a
JavaScript absent numeric field would arrive as `0` here, which the code
also treats as falsy). -/
structure RawAiContent where
  disease : String
  confidence : ℚ
  severity : String
  immediateActions : Option (List String)
  treatmentSteps : Option (List TreatmentStep)
  preventionMeasures : Option (List PreventionMeasure)
  additionalNotes : String
  sourceReliability : ℚ
  estimatedRecoveryTime : String
deriving Repr, DecidableEq

/-- Translation of `OpenaiService.getDefaultRecoveryTime`. -/
def getDefaultRecoveryTime (severity : String) : String :=
  if severity = "mild" then "1-2 weeks with proper care"
  else if severity = "moderate" then "2-4 weeks with consistent treatment"
  else if severity = "severe" then "4-8 weeks with intensive treatment"
  else "2-4 weeks with proper treatment"

/-- Translation of `OpenaiService.validateAndEnhanceResponse`
(openai.service.ts).  Throws (models as `Except.error`) when `disease`,
`severity` or `immediateActions` is falsy; defaults absent arrays to
`[]`; sets `confidence := Math.min(confidence, response.confidence ||
confidence)` (`0` is falsy); defaults a falsy `sourceReliability` to
`0.85`; coerces a severity outside the enum to `"moderate"` when the
classification confidence exceeds `0.8` and to `"mild"` otherwise; and
fills an empty recovery time from the (possibly coerced) severity. -/
def validateAndEnhanceResponse (response : RawAiContent)
    (_classification : String) (confidence : ℚ) :
    Except String RecommendationContent :=
  if response.disease = "" ∨ response.severity = "" ∨
      response.immediateActions = none then
    .error "Incomplete recommendation generated"
  else
    let severity : String :=
      if response.severity = "mild" ∨ response.severity = "moderate" ∨
          response.severity = "severe" then response.severity
      else if confidence > 0.8 then "moderate" else "mild"
    .ok
      { disease := response.disease
        confidence :=
          min confidence
            (if response.confidence = 0 then confidence else response.confidence)
        severity := severity
        immediateActions := response.immediateActions.getD []
        treatmentSteps := response.treatmentSteps.getD []
        preventionMeasures := response.preventionMeasures.getD []
        additionalNotes := response.additionalNotes
        sourceReliability :=
          if response.sourceReliability = 0 then 0.85
          else response.sourceReliability
        estimatedRecoveryTime :=
          if response.estimatedRecoveryTime = "" then
            getDefaultRecoveryTime severity
          else response.estimatedRecoveryTime }

/-- Severity of the enhanced response when enhancement succeeds (`none`
when `validateAndEnhanceResponse` rejects the reply). -/
def enhancedSeverity (response : RawAiContent) (classification : String)
    (confidence : ℚ) : Option String :=
  match validateAndEnhanceResponse response classification confidence with
  | .ok content => some content.severity
  | .error _ => none

end Openai

namespace Config

/-- `configuration.ml.maxRetries = parseInt(process.env.ML_API_MAX_RETRIES, 10) || 3`
(configuration file).  `none` models an unset or non-numeric variable
(`parseInt` gives `NaN`, which is falsy), and an explicit `0` is also
falsy, so both fall back to the default `3`. -/
def mlMaxRetries : Option ℕ → ℕ
  | some n => if n = 0 then 3 else n
  | none => 3

/-- `configuration.upload.maxFileSize = parseInt(process.env.MAX_FILE_SIZE, 10) || 16 * 1024 * 1024`. -/
def uploadMaxFileSize : Option ℕ → ℕ
  | some n => if n = 0 then 16 * 1024 * 1024 else n
  | none => 16 * 1024 * 1024

/-- `configuration.upload.allowedMimeTypes`. -/
def allowedMimeTypes : List String :=
  ["image/jpeg", "image/png", "image/gif", "image/bmp", "image/tiff", "image/webp"]

end Config

namespace MlModel

/-- Prediction object of the external Python classifier response
(`PythonApiResponse.prediction` in ml-model.service.ts). -/
structure PythonPrediction where
  confidence : ℚ
  file_size : ℕ
  filename : String
  health_status : String
  interpretation : String
  result : String
  status : String
  threshold : ℚ
deriving Repr, DecidableEq

/-- External Python classifier response (`PythonApiResponse`). -/
structure PythonApiResponse where
  success : Bool
  prediction : Option PythonPrediction
  error : Option String
  message : Option String
deriving Repr, DecidableEq

/-- Normalized prediction (`MlPredictionResult` in ml-model.service.ts).
The JavaScript `probabilities` record holds exactly the two keys
`healthy` and `angular_leaf_spot`; they are modelled as the two fields
`probHealthy` and `probAngularLeafSpot`. -/
structure MlPredictionResult where
  predicted_class : String
  confidence : ℚ
  probHealthy : ℚ
  probAngularLeafSpot : ℚ
  processing_time_ms : ℕ
  model_version : String
  timestamp : String
deriving Repr, DecidableEq

/-- Translation of `MlModelService.transformPythonResponse`.  `now` is
the `new Date().toISOString()` string. -/
def transformPythonResponse (prediction : PythonPrediction) (now : String) :
    MlPredictionResult :=
  { predicted_class :=
      if prediction.status = "healthy" then "healthy" else "angular_leaf_spot"
    confidence := prediction.confidence
    probHealthy :=
      if prediction.status = "healthy" then prediction.confidence
      else 1 - prediction.confidence
    probAngularLeafSpot :=
      if prediction.status = "unhealthy" then prediction.confidence
      else 1 - prediction.confidence
    processing_time_ms := 0
    model_version := "1.0.0"
    timestamp := now }

/-- Success test of one HTTP attempt inside
`MlModelService.makeRequestWithRetry`: a network-level failure is
`Except.error`; a 2xx body succeeds only when `success` is set and a
`prediction` is present, and is otherwise turned into the thrown
`response.data.error || 'Invalid response from ML API'`. -/
def attemptOutcome (httpResult : Except String PythonApiResponse)
    (now : String) : Except String MlPredictionResult :=
  match httpResult with
  | .error e => .error e
  | .ok resp =>
    match resp.success, resp.prediction with
    | true, some p => .ok (transformPythonResponse p now)
    | _, _ => .error (resp.error.getD "Invalid response from ML API")

/-- Backoff before the next attempt after failed attempt number
`attempt`: `Math.pow(2, attempt) * 1000` milliseconds. -/
def backoffDelay (attempt : ℕ) : ℕ := 2 ^ attempt * 1000

/-- Observable trace of the retry loop: its final outcome, how many
attempts were made, and the list of backoff delays slept between
attempts. -/
structure RetryTrace (R : Type) where
  outcome : Except String R
  attemptsMade : ℕ
  delays : List ℕ
deriving Repr

/-- Translation of the loop body of `MlModelService.makeRequestWithRetry`,
parameterized by the outcome `att a` of the `a`-th HTTP attempt:
starting at attempt number `attempt` with `remaining` loop iterations
left, return on the first success, rethrow on the last allowed attempt,
and otherwise sleep `backoffDelay attempt` and continue.  `remaining = 0`
models the JavaScript loop body never running (the function then falls
through and the caller fails on the `undefined` result). -/
def retryFrom {R : Type} (att : ℕ → Except String R) (attempt : ℕ) :
    ℕ → RetryTrace R
  | 0 => ⟨.error "no attempt made", 0, []⟩
  | remaining + 1 =>
    match att attempt with
    | .ok r => ⟨.ok r, 1, []⟩
    | .error e =>
      if remaining = 0 then ⟨.error e, 1, []⟩
      else
        let t := retryFrom att (attempt + 1) remaining
        ⟨t.outcome, t.attemptsMade + 1, backoffDelay attempt :: t.delays⟩

/-- Translation of `MlModelService.makeRequestWithRetry`: attempts are
numbered `1 .. retries`. -/
def makeRequestWithRetry {R : Type} (att : ℕ → Except String R)
    (retries : ℕ) : RetryTrace R :=
  retryFrom att 1 retries

/-- Observable trace of `MlModelService.classifyImage`: its result, how
many times the temporary file was unlinked, and the retry trace. -/
structure ClassifyTrace where
  result : Except String MlPredictionResult
  unlinks : ℕ
  attemptsMade : ℕ
  delays : List ℕ
deriving Repr

/-- Translation of `MlModelService.classifyImage` for a file already on
disk: run the retry loop; on success unlink the temp file once and stamp
the measured `elapsed` processing time; on any error unlink the temp
file once and throw the wrapping `'Failed to classify image'`
`HttpException`. -/
def classifyImage (att : ℕ → Except String MlPredictionResult)
    (retries : ℕ) (elapsed : ℕ) : ClassifyTrace :=
  let t := makeRequestWithRetry att retries
  match t.outcome with
  | .ok r =>
    ⟨.ok { r with processing_time_ms := elapsed }, 1, t.attemptsMade, t.delays⟩
  | .error _ => ⟨.error "Failed to classify image", 1, t.attemptsMade, t.delays⟩

/-- Per-file entry of `MlModelService.classifyImagesBatch`. -/
structure MlBatchEntry where
  filename : String
  result : Option MlPredictionResult
  error : Option String
deriving Repr, DecidableEq

/-- Worker of `MlModelService.classifyImagesBatch`: file `i` (0-based)
is classified independently with overall per-file outcome `outcome i`
(the result of `classifyImage` for that file, retries included); the
inner `try/catch` converts a failure into an error entry, so no file
aborts the others.  `filename` is `image_` with the 1-based index, as in
the source. -/
def classifyImagesBatchFrom (outcome : ℕ → Except String MlPredictionResult) :
    ℕ → ℕ → List MlBatchEntry
  | _, 0 => []
  | i, n + 1 =>
    (match outcome i with
     | .ok r => ⟨"image_" ++ toString (i + 1), some r, none⟩
     | .error e => ⟨"image_" ++ toString (i + 1), none, some e⟩)
      :: classifyImagesBatchFrom outcome (i + 1) n

/-- Translation of `MlModelService.classifyImagesBatch` over `count`
image paths. -/
def classifyImagesBatch (outcome : ℕ → Except String MlPredictionResult)
    (count : ℕ) : List MlBatchEntry :=
  classifyImagesBatchFrom outcome 0 count

end MlModel

namespace ImageClassification

/-- Fields of the Multer upload record that
`ImageClassificationService` reads. -/
structure MulterFile where
  originalname : String
  mimetype : String
  size : ℕ
  path : String
deriving Repr, DecidableEq

/-- Translation of `ImageClassificationService.validateFile`: checks in
order file presence, MIME-type membership in the allow-list, size bound,
and a non-empty stored path.  `Math.round(maxFileSize / 1024 / 1024)`
is `(maxFileSize + 2^19) / 2^20` on naturals. -/
def validateFile (allowedMimeTypes : List String) (maxFileSize : ℕ) :
    Option MulterFile → Except String Unit
  | none => .error "No file provided"
  | some file =>
    if (allowedMimeTypes.contains file.mimetype) = false then
      .error ("Invalid file type. Allowed types: "
        ++ String.intercalate ", " allowedMimeTypes)
    else if file.size > maxFileSize then
      .error ("File too large. Maximum size: "
        ++ toString ((maxFileSize + 524288) / 1048576) ++ "MB")
    else if file.path = "" then .error "File upload failed"
    else .ok ()

/-- Translation of `ImageClassificationService.classifyImage` for a file
already written to disk by Multer: validate the file (rejection throws
with nothing else done — in particular without touching the temp file),
then delegate to `MlModelService.classifyImage` whose trace records the
unlink count. -/
def classifyImage (allowedMimeTypes : List String) (maxFileSize : ℕ)
    (file : Option MulterFile)
    (att : ℕ → Except String MlModel.MlPredictionResult)
    (retries : ℕ) (elapsed : ℕ) : MlModel.ClassifyTrace :=
  match validateFile allowedMimeTypes maxFileSize file with
  | .error e => ⟨.error e, 0, 0, []⟩
  | .ok _ => MlModel.classifyImage att retries elapsed

/-- The `files.forEach(file => this.validateFile(file))` prefix of
`ImageClassificationService.classifyImagesBatch`: the first validation
failure throws. -/
def validateAll (allowedMimeTypes : List String) (maxFileSize : ℕ) :
    List MulterFile → Except String Unit
  | [] => .ok ()
  | file :: rest =>
    match validateFile allowedMimeTypes maxFileSize (some file) with
    | .error e => .error e
    | .ok _ => validateAll allowedMimeTypes maxFileSize rest

/-- Summary block of the batch response. -/
structure BatchSummary where
  total : ℕ
  successful : ℕ
  failed : ℕ
deriving Repr, DecidableEq

/-- Pair each ML batch entry with the uploaded file it came from:
`filename` becomes `files[index].originalname` and
`transformPredictionResult` copies the prediction fields unchanged. -/
def pairWithOriginalNames :
    List MulterFile → List MlModel.MlBatchEntry → List MlModel.MlBatchEntry
  | [], _ => []
  | _, [] => []
  | file :: fs, entry :: es =>
    ⟨file.originalname, entry.result, entry.error⟩ :: pairWithOriginalNames fs es

/-- Translation of `ImageClassificationService.classifyImagesBatch`:
reject an empty batch, validate every file up front, fan out one
independent classification per file (per-file outcome `outcome i`),
collect all entries, and count `results.filter(r => r.result && !r.error)`
as successful. -/
def classifyImagesBatch (allowedMimeTypes : List String) (maxFileSize : ℕ)
    (files : List MulterFile)
    (outcome : ℕ → Except String MlModel.MlPredictionResult) :
    Except String (List MlModel.MlBatchEntry × BatchSummary) :=
  if files.isEmpty then .error "No files provided for batch processing"
  else
    match validateAll allowedMimeTypes maxFileSize files with
    | .error e => .error e
    | .ok _ =>
      let mlResults := MlModel.classifyImagesBatch outcome files.length
      let results := pairWithOriginalNames files mlResults
      let successful := results.countP fun r => r.result.isSome && r.error.isNone
      .ok (results, ⟨results.length, successful, results.length - successful⟩)

end ImageClassification

namespace Recommendations

/-- Stored recommendation document (`Recommendation` in
`recommendation.schema.ts`).  `userRating`/`userFeedback` are `Option`
at the document level because a raw Mongo document may lack the fields;
timestamps are milliseconds. -/
structure Recommendation where
  sessionId : String
  imageClassification : String
  classificationConfidence : ℚ
  content : RecommendationContent
  generatedBy : String
  promptVersion : String
  userRating : Option ℚ
  userFeedback : Option String
  createdAt : ℕ
  updatedAt : ℕ
deriving Repr, DecidableEq

/-- `RecommendationsService.currentPromptVersion`. -/
def currentPromptVersion : String := "1.0.0"

/-- Document constructed by `new this.recommendationModel({...})` in
`RecommendationsService.generateRecommendation`.  The schema declares
`@Prop({ default: 0 }) userRating?: number`, so Mongoose fills the
omitted rating with `0` at instantiation and the document is persisted
with `userRating = 0` (not with the field absent). -/
def newRecommendationDoc (sessionId classification : String)
    (confidence : ℚ) (content : RecommendationContent)
    (generatedBy : String) (now : ℕ) : Recommendation :=
  { sessionId := sessionId
    imageClassification := classification
    classificationConfidence := confidence
    content := content
    generatedBy := generatedBy
    promptVersion := currentPromptVersion
    userRating := some 0
    userFeedback := none
    createdAt := now
    updatedAt := now }

/-- Shape of `RecommendationGeneratedResponseDto` as built by
`RecommendationsService.generateRecommendation`. -/
structure GeneratedResponse where
  success : Bool
  message : String
  data : Option Recommendation
  processingTimeMs : ℕ
deriving Repr, DecidableEq

/-- Translation of `RecommendationsService.generateRecommendation`:
`generated` is the outcome of the injected AI service call (the only
fallible step before the save); on success the document is saved and a
success envelope returned, on failure the `catch` block returns
`{success: false, message: error.message || 'Failed to generate
recommendation', processingTimeMs}` as an ordinary value — nothing is
saved and nothing is thrown.  Returns the response together with the
post-state of the store. -/
def generateRecommendation (store : List Recommendation)
    (generated : Except String RecommendationContent)
    (sessionId classification : String) (confidence : ℚ)
    (generatedBy : String) (now elapsed : ℕ) :
    GeneratedResponse × List Recommendation :=
  match generated with
  | .ok content =>
    let doc := newRecommendationDoc sessionId classification confidence
      content generatedBy now
    (⟨true, "Recommendation generated successfully", some doc, elapsed⟩,
      store ++ [doc])
  | .error e =>
    (⟨false, if e = "" then "Failed to generate recommendation" else e,
      none, elapsed⟩, store)

/-- Mongo filter built in `RecommendationsService.getRecommendations`:
`if (sessionId) filter.sessionId = sessionId` — a missing or empty
(falsy) value adds no constraint. -/
def matchesFilter (sessionId classification : Option String)
    (r : Recommendation) : Bool :=
  (match sessionId with
   | some s => if s = "" then true else r.sessionId == s
   | none => true)
  && (match classification with
      | some c => if c = "" then true else r.imageClassification == c
      | none => true)

/-- Ordering used by `.sort({ createdAt: -1 })`: later-created documents
first. -/
def createdNoEarlier (a b : Recommendation) : Prop :=
  b.createdAt ≤ a.createdAt

instance : DecidableRel createdNoEarlier :=
  fun a b => Nat.decLe b.createdAt a.createdAt

instance : IsTotal Recommendation createdNoEarlier :=
  ⟨fun a b => le_total b.createdAt a.createdAt⟩

instance : IsTrans Recommendation createdNoEarlier :=
  ⟨fun _ _ _ hab hbc => le_trans hbc hab⟩

/-- Pagination block of the list response. -/
structure PaginationInfo where
  total : ℕ
  page : ℕ
  limit : ℕ
  totalPages : ℕ
deriving Repr, DecidableEq

/-- Shape of `RecommendationListResponseDto`. -/
structure ListResponse where
  records : List Recommendation
  pagination : PaginationInfo
deriving Repr, DecidableEq

/-- Translation of `RecommendationsService.getRecommendations`: defaults
`limit = 10`, `skip = 0`; counts the matching documents; fetches them
sorted by `createdAt` descending with `skip`/`limit` applied;
`totalPages = Math.ceil(total / limit)` and `page =
Math.floor(skip / limit) + 1`.  The DTO enforces `1 ≤ limit ≤ 100`, so
`limit` is never `0` on real requests. -/
def getRecommendations (store : List Recommendation)
    (sessionId classification : Option String)
    (limitOpt skipOpt : Option ℕ) : ListResponse :=
  let limit := limitOpt.getD 10
  let skip := skipOpt.getD 0
  let matching := store.filter (matchesFilter sessionId classification)
  let total := matching.length
  let sorted := List.insertionSort createdNoEarlier matching
  { records := (sorted.drop skip).take limit
    pagination :=
      { total := total
        page := skip / limit + 1
        limit := limit
        totalPages := Nat.ceil ((total : ℚ) / (limit : ℚ)) } }

/-- Feedback update applied by `RecommendationsService.submitFeedback`
to the found document: the rating is overwritten, the feedback text only
when truthy, and `updatedAt` is touched. -/
def applyFeedback (r : Recommendation) (rating : ℚ)
    (feedback : Option String) (now : ℕ) : Recommendation :=
  { r with
    userRating := some rating
    userFeedback :=
      match feedback with
      | some f => if f = "" then r.userFeedback else some f
      | none => r.userFeedback
    updatedAt := now }

/-- Translation of `RecommendationsService.submitFeedback` over a store
addressed by position: a missing id raises `NotFoundException`. -/
def submitFeedback (store : List Recommendation) (idx : ℕ) (rating : ℚ)
    (feedback : Option String) (now : ℕ) :
    Except String (List Recommendation) :=
  if h : idx < store.length then
    .ok (store.set idx (applyFeedback (store.get ⟨idx, h⟩) rating feedback now))
  else .error "Recommendation not found"

/-- Translation of `RecommendationsService.getAverageRating`: the
aggregation `$match`es documents whose `userRating` exists and is not
null (on this model: the field is `some _`), then `$avg`s the ratings;
with no matching document the service returns `null`. -/
def getAverageRating (store : List Recommendation) : Option ℚ :=
  let ratings := store.filterMap fun r => r.userRating
  if ratings.isEmpty then none
  else some (ratings.sum / (ratings.length : ℚ))

end Recommendations

/-- Success test on `Except`, used to phrase which attempts/outcomes
succeed. -/
def exOk {ε α : Type} : Except ε α → Bool
  | .ok _ => true
  | .error _ => false

end AngularLeaf

namespace AngularLeaf

open MockOpenai Openai MlModel ImageClassification Recommendations

/-- External generator reply whose severity "critical" is outside the
enum; all required fields are present. -/
def rawBogusSeverity : RawAiContent :=
  { disease := "Angular Leaf Spot"
    confidence := 0.7
    severity := "critical"
    immediateActions := some ["Isolate affected plants immediately"]
    treatmentSteps := none
    preventionMeasures := none
    additionalNotes := ""
    sourceReliability := 0
    estimatedRecoveryTime := "" }

/-- External classifier reply whose `status` is neither "healthy" nor
"unhealthy". -/
def pythonDiseased : PythonPrediction :=
  { confidence := 0.9
    file_size := 2048
    filename := "leaf-17.jpg"
    health_status := "diseased"
    interpretation := "Angular leaf spot detected"
    result := "diseased"
    status := "diseased"
    threshold := 0.5 }

/-- Upload with a MIME type outside the allow-list. -/
def badMimeFile : MulterFile :=
  { originalname := "notes.txt"
    mimetype := "text/plain"
    size := 100
    path := "/tmp/uploads/image-1.txt" }

/-- Upload that passes validation. -/
def goodJpegFile : MulterFile :=
  { originalname := "leaf.jpg"
    mimetype := "image/jpeg"
    size := 51200
    path := "/tmp/uploads/image-2.jpg" }

/-- Attempt sequence whose classifier call always fails. -/
def attUnreachable : ℕ → Except String MlPredictionResult :=
  fun _ => .error "connect ECONNREFUSED"

/-- Failing attempt sequence used to exercise the retry policy. -/
def attConnRefused : ℕ → Except String Unit :=
  fun _ => .error "connect ECONNREFUSED"

/-- Spec-side description of the batch entry the service produces for
uploaded file `f` at position `i`: the prediction on success, the error
message on failure, always under the file's original name. -/
def expectedBatchEntry (outcome : ℕ → Except String MlPredictionResult)
    (f : MulterFile) (i : ℕ) : MlBatchEntry :=
  match outcome i with
  | .ok r => ⟨f.originalname, some r, none⟩
  | .error e => ⟨f.originalname, none, some e⟩

/-- Upload files for the batch witness. -/
def leafFileA : MulterFile :=
  ⟨"leafA.jpg", "image/jpeg", 1000, "/tmp/uploads/a.jpg"⟩

/-- Second upload file for the batch witness. -/
def leafFileB : MulterFile :=
  ⟨"leafB.jpg", "image/jpeg", 2000, "/tmp/uploads/b.jpg"⟩

/-- Third upload file for the batch witness. -/
def leafFileC : MulterFile :=
  ⟨"leafC.jpg", "image/jpeg", 3000, "/tmp/uploads/c.jpg"⟩

/-- Batch of three valid uploads. -/
def batchFiles3 : List MulterFile := [leafFileA, leafFileB, leafFileC]

/-- Prediction returned by the succeeding batch calls. -/
def demoPrediction : MlPredictionResult :=
  { predicted_class := "healthy"
    confidence := 1/2
    probHealthy := 1/2
    probAngularLeafSpot := 1/2
    processing_time_ms := 0
    model_version := "1.0.0"
    timestamp := "t0" }

/-- Per-file outcomes where only file 1 (0-based) fails. -/
def batchOutcome1 : ℕ → Except String MlPredictionResult :=
  fun i => if i = 1 then .error "Failed to classify image"
    else .ok demoPrediction

/-- Minimal recommendation content used as test data for the store. -/
def demoContent : RecommendationContent :=
  { disease := "Angular Leaf Spot"
    confidence := 1
    severity := "moderate"
    immediateActions := []
    treatmentSteps := []
    preventionMeasures := []
    additionalNotes := ""
    sourceReliability := 1
    estimatedRecoveryTime := "" }

/-- Store of 25 recommendations with distinct creation times. -/
def demoStore25 : List Recommendation :=
  (List.range 25).map fun i =>
    newRecommendationDoc ("sess-" ++ toString i) "angular_leaf_spot" 1
      demoContent "MockOpenaiService" i

/-- Store produced by the service's own operations: three
recommendations created by `generateRecommendation` (so each is
persisted with the schema-default `userRating = 0`), then user feedback
with ratings 4 and 5 submitted for the first two; the third record never
receives a rating. -/
def c1Store : List Recommendation :=
  let s1 := (generateRecommendation [] (.ok demoContent) "sess-a"
    "angular_leaf_spot" (9/10) "MockOpenaiService" 1 5).2
  let s2 := (generateRecommendation s1 (.ok demoContent) "sess-b"
    "angular_leaf_spot" (9/10) "MockOpenaiService" 2 5).2
  let s3 := (generateRecommendation s2 (.ok demoContent) "sess-c"
    "angular_leaf_spot" (9/10) "MockOpenaiService" 3 5).2
  let s4 := match submitFeedback s3 0 4 none 10 with
    | .ok s => s
    | .error _ => s3
  match submitFeedback s4 1 5 none 11 with
  | .ok s => s
  | .error _ => s4

/-- External classifier reply `{status: "healthy", confidence: 0.9}`. -/
def pythonHealthy : PythonPrediction :=
  { confidence := 0.9
    file_size := 1024
    filename := "leaf-1.jpg"
    health_status := "healthy"
    interpretation := "Healthy leaf"
    result := "healthy"
    status := "healthy"
    threshold := 0.5 }

end AngularLeaf

namespace AngularLeaf

open MockOpenai Openai MlModel ImageClassification Recommendations

/-- C6: for every confidence `c ∈ [0,1]` given to the templated
generator with a non-healthy classification, the returned severity is
"moderate" iff `c > 0.8`, "mild" iff `0.6 < c ≤ 0.8`, and "severe"
otherwise. -/
theorem mock_severity_thresholds (classification : String) (c : ℚ)
    (ctx : Option String)
    (hcls : isHealthyClassification classification = false)
    (h0 : 0 ≤ c) (h1 : c ≤ 1) :
    ((generateMockRecommendation classification c ctx).severity = "moderate"
        ↔ 0.8 < c) ∧
    ((generateMockRecommendation classification c ctx).severity = "mild"
        ↔ 0.6 < c ∧ c ≤ 0.8) ∧
    ((generateMockRecommendation classification c ctx).severity = "severe"
        ↔ c ≤ 0.6) := by
  have hs : (generateMockRecommendation classification c ctx).severity
      = if 0.8 < c then "moderate" else if 0.6 < c then "mild" else "severe" := by
    simp only [generateMockRecommendation, hcls, Bool.false_eq_true, if_false,
      gt_iff_lt]
  rw [hs]
  rcases lt_or_le (0.8 : ℚ) c with h8 | h8
  · rw [if_pos h8]
    refine ⟨iff_of_true rfl h8, iff_of_false (by decide) ?_,
      iff_of_false (by decide) ?_⟩
    · rintro ⟨-, hle⟩
      exact absurd h8 (not_lt.mpr hle)
    · intro hle
      linarith
  · rw [if_neg (not_lt.mpr h8)]
    rcases lt_or_le (0.6 : ℚ) c with h6 | h6
    · rw [if_pos h6]
      exact ⟨iff_of_false (by decide) (not_lt.mpr h8),
        iff_of_true rfl ⟨h6, h8⟩,
        iff_of_false (by decide) (not_le.mpr h6)⟩
    · rw [if_neg (not_lt.mpr h6)]
      refine ⟨iff_of_false (by decide) (not_lt.mpr h8),
        iff_of_false (by decide) ?_, iff_of_true rfl h6⟩
      rintro ⟨h6', -⟩
      exact absurd h6' (not_lt.mpr h6)

/-- Witness for C6: at classification "angular_leaf_spot" and confidence
`0.5`, the thresholds give "severe". -/
theorem mock_severity_thresholds_witness :
    isHealthyClassification "angular_leaf_spot" = false ∧ (0 : ℚ) ≤ 0.5 ∧
      (0.5 : ℚ) ≤ 1 ∧
      ((generateMockRecommendation "angular_leaf_spot" 0.5 none).severity
          = "severe" ↔ (0.5 : ℚ) ≤ 0.6) :=
  ⟨by decide, by norm_num, by norm_num,
    (mock_severity_thresholds "angular_leaf_spot" 0.5 none (by decide)
      (by norm_num) (by norm_num)).2.2⟩

/-- C10: for every input confidence `c ∈ [0,1]` the templated generator
returns content confidence `min (c + 0.05) 1` on the healthy branch and
`min (c + 0.1) 1` on the unhealthy branch — always within `[0,1]` but
able to strictly exceed `c` — while the delegated generator clamps the
enhanced confidence to at most `c`. -/
theorem mock_confidence_policy (classification : String) (c : ℚ)
    (ctx : Option String) (h0 : 0 ≤ c) (h1 : c ≤ 1) :
    ((generateMockRecommendation classification c ctx).confidence
        = if isHealthyClassification classification then min (c + 0.05) 1
          else min (c + 0.1) 1) ∧
    (0 ≤ (generateMockRecommendation classification c ctx).confidence ∧
      (generateMockRecommendation classification c ctx).confidence ≤ 1) ∧
    (∃ c₀, 0 ≤ c₀ ∧ c₀ ≤ 1 ∧
      c₀ < (generateMockRecommendation classification c₀ ctx).confidence) ∧
    (∀ raw out, validateAndEnhanceResponse raw classification c = Except.ok out →
      out.confidence ≤ c) := by
  refine ⟨?_, ?_, ?_, ?_⟩
  · cases hH : isHealthyClassification classification <;>
      simp [generateMockRecommendation, hH] <;> norm_num
  · cases hH : isHealthyClassification classification <;>
      simp only [generateMockRecommendation, hH, Bool.false_eq_true, if_false,
        if_true] <;>
      exact ⟨le_min (by linarith) (by norm_num), (min_le_right _ _).trans (by norm_num)⟩
  · refine ⟨1/2, by norm_num, by norm_num, ?_⟩
    cases hH : isHealthyClassification classification <;>
      simp only [generateMockRecommendation, hH, Bool.false_eq_true, if_false,
        if_true] <;>
      exact lt_min (by norm_num) (by norm_num)
  · intro raw out h
    unfold validateAndEnhanceResponse at h
    split_ifs at h <;>
      (simp only [Except.ok.injEq] at h; subst h; exact min_le_left _ _)

/-- Witness for C10: the templated generator at an unhealthy
classification and confidence `0.9` satisfies the formula. -/
theorem mock_confidence_policy_witness :
    (0 : ℚ) ≤ 0.9 ∧ (0.9 : ℚ) ≤ 1 ∧
      ((generateMockRecommendation "angular_leaf_spot" 0.9 none).confidence
        = if isHealthyClassification "angular_leaf_spot" then min ((0.9 : ℚ) + 0.05) 1
          else min ((0.9 : ℚ) + 0.1) 1) :=
  ⟨by norm_num, by norm_num,
    (mock_confidence_policy "angular_leaf_spot" 0.9 none (by norm_num)
      (by norm_num)).1⟩

/-- C9: when the injected generator fails, the generate-recommendation
operation returns an ordinary `{success := false, message, elapsed}`
envelope (not a thrown fault — the function is total), persists nothing
(the store is unchanged and the envelope carries no data). -/
theorem generate_failure_structured (store : List Recommendation)
    (e sid cls gb : String) (conf : ℚ) (now elapsed : ℕ) :
    ((generateRecommendation store (.error e) sid cls conf gb now elapsed).1.success
        = false) ∧
    ((generateRecommendation store (.error e) sid cls conf gb now elapsed).1.message
        = if e = "" then "Failed to generate recommendation" else e) ∧
    ((generateRecommendation store (.error e) sid cls conf gb now elapsed).1.message
        ≠ "") ∧
    ((generateRecommendation store (.error e) sid cls conf gb now elapsed).1.data
        = none) ∧
    ((generateRecommendation store (.error e) sid cls conf gb now elapsed).1.processingTimeMs
        = elapsed) ∧
    ((generateRecommendation store (.error e) sid cls conf gb now elapsed).2
        = store) := by
  refine ⟨rfl, rfl, ?_, rfl, rfl, rfl⟩
  by_cases he : e = "" <;> simp [Recommendations.generateRecommendation, he]

/-- Counterexample to C3: at classification confidence `0.5 ≤ 0.6` an
invalid external severity is coerced to "mild", not to the "severe" that
the templated generator's rule would produce. -/
theorem openai_severity_coercion_cex :
    enhancedSeverity rawBogusSeverity "angular_leaf_spot" 0.5 = some "mild" ∧
    enhancedSeverity rawBogusSeverity "angular_leaf_spot" 0.5 ≠ some "severe" := by
  constructor <;>
    (norm_num [enhancedSeverity, validateAndEnhanceResponse, rawBogusSeverity]
     <;> decide)

/-- C3 (amended): when the delegated generator's reply passes the
required-field check but carries a severity outside the enum, the
coerced severity is "moderate" iff the classification confidence exceeds
`0.8` and "mild" otherwise — "severe" is never produced, unlike the
templated generator's three-threshold rule. -/
theorem openai_severity_coercion (raw : RawAiContent) (classification : String)
    (c : ℚ)
    (hpresent : ¬(raw.disease = "" ∨ raw.severity = "" ∨
      raw.immediateActions = none))
    (hinv : ¬(raw.severity = "mild" ∨ raw.severity = "moderate" ∨
      raw.severity = "severe")) :
    (enhancedSeverity raw classification c = some "moderate" ↔ 0.8 < c) ∧
    (enhancedSeverity raw classification c = some "mild" ↔ ¬0.8 < c) ∧
    enhancedSeverity raw classification c ≠ some "severe" := by
  have hs : enhancedSeverity raw classification c
      = some (if 0.8 < c then "moderate" else "mild") := by
    unfold enhancedSeverity validateAndEnhanceResponse
    rw [if_neg hpresent]
    simp only [hinv, if_false, gt_iff_lt]
  rw [hs]
  by_cases h8 : (0.8 : ℚ) < c
  · rw [if_pos h8]
    exact ⟨iff_of_true rfl h8, iff_of_false (by decide) (fun hn => hn h8),
      by decide⟩
  · rw [if_neg h8]
    exact ⟨iff_of_false (by decide) h8, iff_of_true rfl h8, by decide⟩

/-- Witness for C3 (amended): the invalid severity "critical" at
confidence `0.9 > 0.8` is coerced to "moderate". -/
theorem openai_severity_coercion_witness :
    (¬(rawBogusSeverity.disease = "" ∨ rawBogusSeverity.severity = "" ∨
      rawBogusSeverity.immediateActions = none)) ∧
    (¬(rawBogusSeverity.severity = "mild" ∨
      rawBogusSeverity.severity = "moderate" ∨
      rawBogusSeverity.severity = "severe")) ∧
    (enhancedSeverity rawBogusSeverity "angular_leaf_spot" 0.9
        = some "moderate" ↔ (0.8 : ℚ) < 0.9) :=
  ⟨by decide, by decide,
    (openai_severity_coercion rawBogusSeverity "angular_leaf_spot" 0.9
      (by decide) (by decide)).1⟩

/-- Counterexample to C4: for status "diseased" with confidence `0.9`
the predicted class is "angular_leaf_spot" but that class receives
probability `0.1`, not the reported confidence, and the two
probabilities no longer sum to `1` (the `unhealthy` comparison in the
probabilities map misses every non-"unhealthy" disease status). -/
theorem transform_distribution_cex :
    (transformPythonResponse pythonDiseased "2024-01-15T10:30:00.000Z").predicted_class
        = "angular_leaf_spot" ∧
    (transformPythonResponse pythonDiseased "2024-01-15T10:30:00.000Z").probAngularLeafSpot
        = 0.1 ∧
    (transformPythonResponse pythonDiseased "2024-01-15T10:30:00.000Z").probAngularLeafSpot
        ≠ 0.9 ∧
    (transformPythonResponse pythonDiseased "2024-01-15T10:30:00.000Z").probHealthy
          + (transformPythonResponse pythonDiseased "2024-01-15T10:30:00.000Z").probAngularLeafSpot
        ≠ 1 := by
  have hH : ¬("diseased" = "healthy") := by decide
  have hU : ¬("diseased" = "unhealthy") := by decide
  refine ⟨?_, ?_, ?_, ?_⟩ <;>
    norm_num [transformPythonResponse, pythonDiseased, hH, hU]

/-- C4 (amended): for the binary statuses "healthy" and "unhealthy" the
normalization yields a genuine two-class distribution: the reported
confidence goes to the class matching the status and `1 - confidence`
to the other class, and the overall confidence is passed through. -/
theorem transform_distribution (p : PythonPrediction) (now : String)
    (h0 : 0 ≤ p.confidence) (h1 : p.confidence ≤ 1) :
    (p.status = "healthy" →
      (transformPythonResponse p now).predicted_class = "healthy" ∧
      (transformPythonResponse p now).probHealthy = p.confidence ∧
      (transformPythonResponse p now).probAngularLeafSpot = 1 - p.confidence ∧
      (transformPythonResponse p now).probHealthy
          + (transformPythonResponse p now).probAngularLeafSpot = 1) ∧
    (p.status = "unhealthy" →
      (transformPythonResponse p now).predicted_class = "angular_leaf_spot" ∧
      (transformPythonResponse p now).probAngularLeafSpot = p.confidence ∧
      (transformPythonResponse p now).probHealthy = 1 - p.confidence ∧
      (transformPythonResponse p now).probHealthy
          + (transformPythonResponse p now).probAngularLeafSpot = 1) ∧
    (transformPythonResponse p now).confidence = p.confidence := by
  have hHU : ¬("healthy" = "unhealthy") := by decide
  have hUH : ¬("unhealthy" = "healthy") := by decide
  refine ⟨?_, ?_, rfl⟩
  · intro hst
    refine ⟨?_, ?_, ?_, ?_⟩ <;>
      simp [transformPythonResponse, hst, hHU] <;> ring
  · intro hst
    refine ⟨?_, ?_, ?_, ?_⟩ <;>
      simp [transformPythonResponse, hst, hUH] <;> ring

@[simp]
theorem exOk_ok {ε α : Type} (r : α) : exOk (Except.ok r : Except ε α) = true := rfl

@[simp]
theorem exOk_error {ε α : Type} (e : ε) :
    exOk (Except.error e : Except ε α) = false := rfl

/-- Retry loop when every attempt in the window fails: all `n` attempts
are made, the outcome is an error, and a backoff is slept after every
attempt but the last. -/
theorem retryFrom_all_fail {R : Type} (att : ℕ → Except String R) :
    ∀ n a, 1 ≤ n → (∀ j, a ≤ j → j < a + n → exOk (att j) = false) →
      (retryFrom att a n).attemptsMade = n ∧
      exOk (retryFrom att a n).outcome = false ∧
      (retryFrom att a n).delays = (List.range' a (n - 1)).map backoffDelay := by
  intro n
  induction n with
  | zero => intro a h; omega
  | succ m ih =>
    intro a _ hfail
    have ha : exOk (att a) = false := hfail a le_rfl (by omega)
    cases hatt : att a with
    | ok r => rw [hatt] at ha; simp at ha
    | error e =>
      by_cases hm : m = 0
      · subst hm
        simp [retryFrom, hatt]
      · have hm1 : 1 ≤ m := Nat.one_le_iff_ne_zero.mpr hm
        have ih' := ih (a + 1) hm1 fun j hj hj2 => hfail j (by omega) (by omega)
        obtain ⟨m', rfl⟩ : ∃ m', m = m' + 1 := ⟨m - 1, by omega⟩
        simp only [retryFrom, hatt, hm, if_false, Nat.add_sub_cancel] at ih' ⊢
        refine ⟨by rw [ih'.1], ih'.2.1, ?_⟩
        rw [ih'.2.2, List.range'_succ]
        rfl

/-- Retry loop when attempt `k` is the first success in the window: the
loop stops there, returns that attempt's result, and has slept exactly
the backoffs of the failed attempts before `k`. -/
theorem retryFrom_first_ok {R : Type} (att : ℕ → Except String R) :
    ∀ n a k, a ≤ k → k < a + n → exOk (att k) = true →
      (∀ j, a ≤ j → j < k → exOk (att j) = false) →
      (retryFrom att a n).outcome = att k ∧
      (retryFrom att a n).attemptsMade = k - a + 1 ∧
      (retryFrom att a n).delays = (List.range' a (k - a)).map backoffDelay := by
  intro n
  induction n with
  | zero => intro a k h1 h2; omega
  | succ m ih =>
    intro a k hak hk hok hmin
    cases hatt : att a with
    | ok r =>
      have hka : k = a := by
        by_contra hne
        have hlt : a < k := lt_of_le_of_ne hak (Ne.symm hne)
        have := hmin a le_rfl hlt
        rw [hatt] at this; simp at this
      subst hka
      simp [retryFrom, hatt, Nat.sub_self, List.range']
    | error e =>
      have hak' : a < k := by
        rcases eq_or_lt_of_le hak with rfl | h
        · rw [hatt] at hok; simp at hok
        · exact h
      by_cases hm : m = 0
      · subst hm; omega
      · have ih' := ih (a + 1) k (by omega) (by omega) hok
          fun j hj hj2 => hmin j (by omega) hj2
        simp only [retryFrom, hatt, hm, if_false]
        refine ⟨ih'.1, by rw [ih'.2.1]; omega, ?_⟩
        rw [ih'.2.2]
        obtain ⟨d, hd⟩ : ∃ d, k - a = d + 1 := ⟨k - a - 1, by omega⟩
        have hd' : k - (a + 1) = d := by omega
        rw [hd, hd', List.range'_succ]
        rfl

/-- C5: the classifier proxy makes at most `retries` attempts
(`Config.mlMaxRetries none = 3` by default); when every attempt fails it
makes exactly `retries` attempts, sleeps the doubling backoffs 2s, 4s,
8s, ... between attempts, and only then surfaces an error (an error
outcome implies every attempt in the window failed); the first
successful attempt ends the loop with no further attempt. -/
theorem retry_backoff_policy {R : Type} (att : ℕ → Except String R)
    (retries : ℕ) (hr : 1 ≤ retries) :
    ((∀ j, 1 ≤ j → j ≤ retries → exOk (att j) = false) →
      (makeRequestWithRetry att retries).attemptsMade = retries ∧
      exOk (makeRequestWithRetry att retries).outcome = false ∧
      (makeRequestWithRetry att retries).delays
        = (List.range' 1 (retries - 1)).map backoffDelay) ∧
    (∀ k, 1 ≤ k → k ≤ retries → exOk (att k) = true →
      (∀ j, 1 ≤ j → j < k → exOk (att j) = false) →
      (makeRequestWithRetry att retries).outcome = att k ∧
      (makeRequestWithRetry att retries).attemptsMade = k ∧
      (makeRequestWithRetry att retries).delays
        = (List.range' 1 (k - 1)).map backoffDelay) ∧
    (makeRequestWithRetry att retries).attemptsMade ≤ retries ∧
    (exOk (makeRequestWithRetry att retries).outcome = false →
      ∀ j, 1 ≤ j → j ≤ retries → exOk (att j) = false) ∧
    (∀ a, backoffDelay (a + 1) = 2 * backoffDelay a) ∧
    backoffDelay 1 = 2000 ∧ Config.mlMaxRetries none = 3 := by
  have hfirst : ∀ k, 1 ≤ k → k ≤ retries → exOk (att k) = true →
      (∀ j, 1 ≤ j → j < k → exOk (att j) = false) →
      (makeRequestWithRetry att retries).outcome = att k ∧
      (makeRequestWithRetry att retries).attemptsMade = k ∧
      (makeRequestWithRetry att retries).delays
        = (List.range' 1 (k - 1)).map backoffDelay := by
    intro k h1 h2 hok hmin
    have h := retryFrom_first_ok att retries 1 k h1 (by omega) hok
      fun j hj hj2 => hmin j hj hj2
    unfold makeRequestWithRetry
    exact ⟨h.1, by rw [h.2.1]; omega, h.2.2⟩
  have hle : ∀ n a, (retryFrom att a n).attemptsMade ≤ n := by
    intro n
    induction n with
    | zero => intro a; simp [retryFrom]
    | succ m ih =>
      intro a
      cases hatt : att a with
      | ok r => simp [retryFrom, hatt]
      | error e =>
        by_cases hm : m = 0
        · simp [retryFrom, hatt, hm]
        · simpa [retryFrom, hatt, hm] using ih (a + 1)
  refine ⟨?_, hfirst, hle retries 1, ?_, fun a => by simp [backoffDelay, pow_succ]; ring,
    by norm_num [backoffDelay], rfl⟩
  · intro hfail
    exact retryFrom_all_fail att retries 1 hr fun j hj hj2 => hfail j hj (by omega)
  · intro hout j hj1 hj2
    by_contra hne
    have hjok : exOk (att j) = true := by
      cases h : exOk (att j)
      · exact absurd h hne
      · rfl
    have hQ : ∃ n, 1 ≤ n ∧ n ≤ retries ∧ exOk (att n) = true := ⟨j, hj1, hj2, hjok⟩
    classical
    have hk := Nat.find_spec hQ
    have hmin : ∀ i, 1 ≤ i → i < Nat.find hQ → exOk (att i) = false := by
      intro i hi1 hilt
      have hni := Nat.find_min hQ hilt
      cases h : exOk (att i)
      · rfl
      · exact absurd ⟨hi1, by omega, h⟩ hni
    have := hfirst (Nat.find hQ) hk.1 hk.2.1 hk.2.2 hmin
    rw [this.1] at hout
    rw [hk.2.2] at hout
    simp at hout

/-- Counterexample to C2: a file already written to disk that is
rejected by upload validation (unsupported MIME type) leaves the classify
operation with zero deletions of the temporary file — not exactly one:
`validateFile` throws before `MlModelService.classifyImage` (the only
deleter) is reached, and no catch block unlinks. -/
theorem classify_temp_cleanup_cex :
    (ImageClassification.classifyImage Config.allowedMimeTypes
      (Config.uploadMaxFileSize none) (some badMimeFile) attUnreachable 3 0).unlinks
        = 0 ∧
    (ImageClassification.classifyImage Config.allowedMimeTypes
      (Config.uploadMaxFileSize none) (some badMimeFile) attUnreachable 3 0).unlinks
        ≠ 1 ∧
    exOk (ImageClassification.classifyImage Config.allowedMimeTypes
      (Config.uploadMaxFileSize none) (some badMimeFile) attUnreachable 3 0).result
        = false := by
  refine ⟨?_, ?_, ?_⟩ <;> decide

/-- C2 (amended): once the uploaded file passes validation, the classify
operation deletes the temporary file exactly once whatever the classifier
outcome (success or retries-exhausted failure); on upload-validation
rejection it performs no deletion at all and rethrows the validation
error. -/
theorem classify_temp_cleanup (allowed : List String) (maxSize : ℕ)
    (file : Option MulterFile)
    (att : ℕ → Except String MlPredictionResult) (retries elapsed : ℕ) :
    (∀ u, validateFile allowed maxSize file = Except.ok u →
      (ImageClassification.classifyImage allowed maxSize file att retries
        elapsed).unlinks = 1) ∧
    (∀ e, validateFile allowed maxSize file = Except.error e →
      (ImageClassification.classifyImage allowed maxSize file att retries
          elapsed).unlinks = 0 ∧
      (ImageClassification.classifyImage allowed maxSize file att retries
          elapsed).result = Except.error e) := by
  constructor
  · intro u hv
    simp only [ImageClassification.classifyImage, hv, MlModel.classifyImage]
    cases h : (makeRequestWithRetry att retries).outcome <;> simp [h]
  · intro e hv
    simp [ImageClassification.classifyImage, hv]

/-- Witness for C2 (amended): a valid JPEG upload whose classifier calls
all fail still gets its temporary file deleted exactly once. -/
theorem classify_temp_cleanup_witness :
    ImageClassification.validateFile Config.allowedMimeTypes
      (Config.uploadMaxFileSize none) (some goodJpegFile) = Except.ok () ∧
    (ImageClassification.classifyImage Config.allowedMimeTypes
      (Config.uploadMaxFileSize none) (some goodJpegFile) attUnreachable 3 0).unlinks
        = 1 :=
  ⟨by rfl,
    (classify_temp_cleanup Config.allowedMimeTypes (Config.uploadMaxFileSize none)
      (some goodJpegFile) attUnreachable 3 0).1 () (by rfl)⟩

/-- Witness for C5: with the default three retries and every attempt
failing, exactly three attempts are made and the slept backoffs are
2000ms then 4000ms. -/
theorem retry_backoff_policy_witness :
    (1 ≤ 3) ∧
    ((makeRequestWithRetry attConnRefused 3).attemptsMade = 3 ∧
      exOk (makeRequestWithRetry attConnRefused 3).outcome = false ∧
      (makeRequestWithRetry attConnRefused 3).delays
        = (List.range' 1 (3 - 1)).map backoffDelay) ∧
    (List.range' 1 (3 - 1)).map backoffDelay = [2000, 4000] :=
  ⟨by norm_num,
    (retry_backoff_policy attConnRefused 3 (by norm_num)).1 fun j hj hj2 => rfl,
    by decide⟩

theorem batch_pair_length (outcome : ℕ → Except String MlPredictionResult) :
    ∀ (files : List MulterFile) (i0 : ℕ),
      (pairWithOriginalNames files
        (classifyImagesBatchFrom outcome i0 files.length)).length
        = files.length := by
  intro files
  induction files with
  | nil => intro i0; rfl
  | cons f fs ih =>
    intro i0
    simp only [List.length_cons, classifyImagesBatchFrom, pairWithOriginalNames]
    rw [ih (i0 + 1)]

theorem batch_pair_getElem (outcome : ℕ → Except String MlPredictionResult) :
    ∀ (files : List MulterFile) (i0 j : ℕ),
      (pairWithOriginalNames files
        (classifyImagesBatchFrom outcome i0 files.length))[j]?
        = files[j]?.map fun f => expectedBatchEntry outcome f (i0 + j) := by
  intro files
  induction files with
  | nil => intro i0 j; simp [pairWithOriginalNames, classifyImagesBatchFrom]
  | cons f fs ih =>
    intro i0 j
    cases j with
    | zero =>
      simp only [List.length_cons, classifyImagesBatchFrom, pairWithOriginalNames,
        List.getElem?_cons_zero, Option.map_some, Nat.add_zero, expectedBatchEntry]
      cases h : outcome i0 <;> simp [h]
    | succ m =>
      simp only [List.length_cons, classifyImagesBatchFrom, pairWithOriginalNames,
        List.getElem?_cons_succ]
      rw [ih (i0 + 1) m]
      have harith : i0 + 1 + m = i0 + (m + 1) := by omega
      rw [harith]

theorem batch_pair_countP (outcome : ℕ → Except String MlPredictionResult) :
    ∀ (files : List MulterFile) (i0 : ℕ),
      (pairWithOriginalNames files
        (classifyImagesBatchFrom outcome i0 files.length)).countP
          (fun r => r.result.isSome && r.error.isNone)
        = ((List.range' i0 files.length).filter fun i => exOk (outcome i)).length := by
  intro files
  induction files with
  | nil => intro i0; rfl
  | cons f fs ih =>
    intro i0
    rw [List.length_cons, List.range'_succ]
    cases h : outcome i0 with
    | ok r =>
      simp only [classifyImagesBatchFrom, pairWithOriginalNames, h]
      rw [List.countP_cons, List.filter_cons_of_pos (by simp [exOk, h]),
        List.length_cons, ih (i0 + 1)]
      simp
    | error e =>
      simp only [classifyImagesBatchFrom, pairWithOriginalNames, h]
      rw [List.countP_cons, List.filter_cons_of_neg (by simp [exOk, h]),
        ih (i0 + 1)]
      simp

theorem filter_exOk_all_but_one (outcome : ℕ → Except String MlPredictionResult) :
    ∀ (N i0 k : ℕ), i0 ≤ k → k < i0 + N → exOk (outcome k) = false →
      (∀ j, i0 ≤ j → j < i0 + N → j ≠ k → exOk (outcome j) = true) →
      ((List.range' i0 N).filter fun i => exOk (outcome i)).length = N - 1 := by
  intro N
  induction N with
  | zero => intro i0 k h1 h2; omega
  | succ m ih =>
    intro i0 k h1 h2 hf ho
    rw [List.range'_succ]
    by_cases hik : i0 = k
    · subst hik
      rw [List.filter_cons, if_neg (by simp [hf])]
      have hall : ∀ j ∈ List.range' (i0 + 1) m, exOk (outcome j) = true := by
        intro j hj
        rw [List.mem_range'] at hj
        obtain ⟨i, hi, rfl⟩ := hj
        exact ho _ (by omega) (by omega) (by omega)
      rw [List.filter_eq_self.mpr hall]
      simp
    · have hok : exOk (outcome i0) = true := ho i0 le_rfl (by omega) hik
      rw [List.filter_cons, if_pos (by simp [hok]), List.length_cons,
        ih (i0 + 1) k (by omega) (by omega) hf
          fun j hj1 hj2 hjk => ho j (by omega) (by omega) hjk]
      omega

/-- C8: when classification of file `k` fails with message `e` and every
other file succeeds, the batch operation still returns one entry per
file: the entry at index `k` is the lone error entry, every other index
carries a successful prediction under its file's original name, and the
summary counts `N` total, `N - 1` successful, `1` failed. -/
theorem batch_isolates_failures (allowed : List String) (maxSize : ℕ)
    (files : List MulterFile)
    (outcome : ℕ → Except String MlPredictionResult) (k : ℕ) (e : String)
    (hvalid : validateAll allowed maxSize files = Except.ok ())
    (hk : k < files.length)
    (hfail : outcome k = Except.error e)
    (hothers : ∀ j, j < files.length → j ≠ k → exOk (outcome j) = true) :
    ImageClassification.classifyImagesBatch allowed maxSize files outcome
      = Except.ok
          (pairWithOriginalNames files
            (MlModel.classifyImagesBatch outcome files.length),
            ⟨files.length, files.length - 1, 1⟩) ∧
    (pairWithOriginalNames files
      (MlModel.classifyImagesBatch outcome files.length)).length
        = files.length ∧
    ((pairWithOriginalNames files
      (MlModel.classifyImagesBatch outcome files.length))[k]?
        = files[k]?.map fun f =>
            (⟨f.originalname, none, some e⟩ : MlBatchEntry)) ∧
    (∀ j, j < files.length → j ≠ k → ∃ f r,
      files[j]? = some f ∧ outcome j = Except.ok r ∧
      (pairWithOriginalNames files
        (MlModel.classifyImagesBatch outcome files.length))[j]?
          = some ⟨f.originalname, some r, none⟩) := by
  have hlen := batch_pair_length outcome files 0
  have hcount := batch_pair_countP outcome files 0
  have hfilter := filter_exOk_all_but_one outcome files.length 0 k
    (Nat.zero_le k) (by omega) (by rw [hfail]; rfl)
    fun j _ hj2 hjk => hothers j (by omega) hjk
  have hcount' : (pairWithOriginalNames files
      (classifyImagesBatchFrom outcome 0 files.length)).countP
        (fun r => r.result.isSome && r.error.isNone) = files.length - 1 :=
    hcount.trans hfilter
  refine ⟨?_, ?_, ?_, ?_⟩
  · cases hfs : files with
    | nil => subst hfs; simp at hk
    | cons f fs =>
      rw [← hfs]
      have hne : files.isEmpty = false := by rw [hfs]; rfl
      simp only [ImageClassification.classifyImagesBatch, hne, Bool.false_eq_true,
        if_false, hvalid, MlModel.classifyImagesBatch]
      rw [hlen, hcount']
      have : files.length - (files.length - 1) = 1 := by omega
      rw [this]
  · simpa only [MlModel.classifyImagesBatch] using hlen
  · rw [MlModel.classifyImagesBatch, batch_pair_getElem outcome files 0 k,
      List.getElem?_eq_getElem hk]
    simp [expectedBatchEntry, hfail]
  · intro j hj hjk
    have hok := hothers j hj hjk
    cases houtj : outcome j with
    | error e' => rw [houtj] at hok; simp at hok
    | ok r =>
      refine ⟨files[j], r, List.getElem?_eq_getElem hj, rfl, ?_⟩
      rw [MlModel.classifyImagesBatch, batch_pair_getElem outcome files 0 j,
        List.getElem?_eq_getElem hj]
      simp [expectedBatchEntry, houtj]

/-- Witness for C8: three files where the middle one fails give three
entries and a `{total := 3, successful := 2, failed := 1}` summary. -/
theorem batch_isolates_failures_witness :
    ImageClassification.validateAll Config.allowedMimeTypes
      (Config.uploadMaxFileSize none) batchFiles3 = Except.ok () ∧
    1 < batchFiles3.length ∧
    batchOutcome1 1 = Except.error "Failed to classify image" ∧
    ImageClassification.classifyImagesBatch Config.allowedMimeTypes
      (Config.uploadMaxFileSize none) batchFiles3 batchOutcome1
      = Except.ok
          (pairWithOriginalNames batchFiles3
            (MlModel.classifyImagesBatch batchOutcome1 batchFiles3.length),
            ⟨3, 2, 1⟩) := by
  refine ⟨by rfl, by norm_num [batchFiles3], by rfl, ?_⟩
  have h := (batch_isolates_failures Config.allowedMimeTypes
    (Config.uploadMaxFileSize none) batchFiles3 batchOutcome1 1
    "Failed to classify image" (by rfl) (by norm_num [batchFiles3]) (by rfl)
    fun j hj hjk => by simp [batchOutcome1, hjk]).1
  simpa [batchFiles3] using h

/-- C1: with ratings {4, 5, unrated} the analytics average comes out as
`3`, not the `4.5` the claim states.  The schema default stores
`userRating = 0` on the unrated record, so the aggregation's
exists/not-null `$match` keeps it and it is counted as zero — the claim
describes the `$match`'s evident intent, which the stored default
defeats. -/
theorem analytics_average_counts_default_zero :
    c1Store.map (fun r => r.userRating) = [some 4, some 5, some 0] ∧
    getAverageRating c1Store = some 3 ∧
    getAverageRating c1Store ≠ some (9/2 : ℚ) := by
  have hmap2 : c1Store.filterMap (fun r => r.userRating) = [(4 : ℚ), 5, 0] := by
    decide
  have havg : getAverageRating c1Store = some 3 := by
    simp only [getAverageRating, hmap2]
    norm_num
  refine ⟨by decide, havg, ?_⟩
  rw [havg]
  simp only [ne_eq, Option.some.injEq]
  norm_num

/-- C7: the list operation returns the matching records sorted by
creation time descending, page `floor(skip/limit) + 1`, `totalPages =
ceil(total/limit)`, total the matching count, and `min limit (total -
skip)` records on the page; `limit`/`skip` default to 10/0; for 25
stored records with `limit = 10`, `skip = 20` it returns 5 records with
`totalPages = 3` and `page = 3`. -/
theorem rec_list_pagination :
    (∀ (store : List Recommendation) (sid cls : Option String) (L S : ℕ),
      List.Sorted createdNoEarlier
        (getRecommendations store sid cls (some L) (some S)).records ∧
      (getRecommendations store sid cls (some L) (some S)).pagination.total
        = (store.filter (matchesFilter sid cls)).length ∧
      (getRecommendations store sid cls (some L) (some S)).pagination.page
        = S / L + 1 ∧
      (getRecommendations store sid cls (some L) (some S)).pagination.totalPages
        = Nat.ceil (((store.filter (matchesFilter sid cls)).length : ℚ) / (L : ℚ)) ∧
      (getRecommendations store sid cls (some L) (some S)).records.length
        = min L ((store.filter (matchesFilter sid cls)).length - S)) ∧
    (∀ (store : List Recommendation) (sid cls : Option String),
      getRecommendations store sid cls none none
        = getRecommendations store sid cls (some 10) (some 0)) ∧
    (getRecommendations demoStore25 none none (some 10) (some 20)).records.length
        = 5 ∧
    (getRecommendations demoStore25 none none (some 10) (some 20)).pagination.totalPages
        = 3 ∧
    (getRecommendations demoStore25 none none (some 10) (some 20)).pagination.page
        = 3 := by
  have main : ∀ (store : List Recommendation) (sid cls : Option String) (L S : ℕ),
      List.Sorted createdNoEarlier
        (getRecommendations store sid cls (some L) (some S)).records ∧
      (getRecommendations store sid cls (some L) (some S)).pagination.total
        = (store.filter (matchesFilter sid cls)).length ∧
      (getRecommendations store sid cls (some L) (some S)).pagination.page
        = S / L + 1 ∧
      (getRecommendations store sid cls (some L) (some S)).pagination.totalPages
        = Nat.ceil (((store.filter (matchesFilter sid cls)).length : ℚ) / (L : ℚ)) ∧
      (getRecommendations store sid cls (some L) (some S)).records.length
        = min L ((store.filter (matchesFilter sid cls)).length - S) := by
    intro store sid cls L S
    refine ⟨?_, rfl, rfl, rfl, ?_⟩
    · have hs : List.Sorted createdNoEarlier
          (List.insertionSort createdNoEarlier
            (store.filter (matchesFilter sid cls))) :=
        List.sorted_insertionSort createdNoEarlier _
      exact List.Pairwise.sublist
        ((List.take_sublist _ _).trans (List.drop_sublist _ _)) hs
    · simp [getRecommendations, List.length_take, List.length_drop,
        List.length_insertionSort]
  have hlen25 : (demoStore25.filter (matchesFilter none none)).length = 25 := by
    decide
  refine ⟨main, fun store sid cls => rfl, ?_, ?_, ?_⟩
  · rw [(main demoStore25 none none 10 20).2.2.2.2, hlen25]
    decide
  · rw [(main demoStore25 none none 10 20).2.2.2.1, hlen25,
      Nat.ceil_eq_iff (by norm_num)]
    norm_num
  · rw [(main demoStore25 none none 10 20).2.2.1]

/-- Witness for C4 (amended): `{status: "healthy", confidence: 0.9}`
normalizes to predicted class "healthy" with probabilities
`{healthy: 0.9, angular_leaf_spot: 0.1}`. -/
theorem transform_distribution_witness :
    (0 : ℚ) ≤ pythonHealthy.confidence ∧ pythonHealthy.confidence ≤ 1 ∧
    ((transformPythonResponse pythonHealthy "t0").predicted_class = "healthy" ∧
      (transformPythonResponse pythonHealthy "t0").probHealthy
          = pythonHealthy.confidence ∧
      (transformPythonResponse pythonHealthy "t0").probAngularLeafSpot
          = 1 - pythonHealthy.confidence ∧
      (transformPythonResponse pythonHealthy "t0").probHealthy
          + (transformPythonResponse pythonHealthy "t0").probAngularLeafSpot = 1) ∧
    (transformPythonResponse pythonHealthy "t0").probHealthy = 0.9 ∧
    (transformPythonResponse pythonHealthy "t0").probAngularLeafSpot = 0.1 :=
  ⟨by norm_num [pythonHealthy], by norm_num [pythonHealthy],
    (transform_distribution pythonHealthy "t0" (by norm_num [pythonHealthy])
      (by norm_num [pythonHealthy])).1 rfl,
    by norm_num [transformPythonResponse, pythonHealthy],
    by
      have hHU : ¬("healthy" = "unhealthy") := by decide
      norm_num [transformPythonResponse, pythonHealthy, hHU]⟩

end AngularLeaf
